import Mathlib

/-!
Verification of the Guardian EPI monitoring scripts
(`monitor_epi.py`, `controle_uniforme.py`, `detector_objetos.py`).

Shallow embedding conventions:
* Confidences and model scores are rationals (`ℚ`); the Python floats
  0.75, 0.80, 0.70, 0.95, 0.98 are exactly representable.
* An input image is abstracted by the probability vector that the loaded
  model outputs on it (`List ℚ`); preprocessing and the forward pass of the
  external Keras model are outside the program text being verified.
* File-system effects (evidence images, append-only log lines, report
  files) are counted or accumulated in explicit state records; operations
  that can raise take a `Bool` success flag per I/O step and return the
  state reached together with a `raised?` flag (Python exceptions
  propagate; partial effects persist).
-/

-- ==========================================================================
-- Python string primitives used by the scripts
-- ==========================================================================

/-- Python `str.lower` on a single character (ASCII case fold, as used by
the scripts' keyword checks). -/
def pyCharLower (c : Char) : Char := c.toLower

/-- Python `s.lower()`. -/
def pyLower (s : String) : String := ⟨s.data.map pyCharLower⟩

/-- Does `needle` occur as a leading block of `hay`? (helper for the
substring test of Python's `in`). -/
def listStartsWith : List Char → List Char → Bool
  | [], _ => true
  | _ :: _, [] => false
  | p :: ps, c :: cs => p == c && listStartsWith ps cs

/-- Does `needle` occur contiguously somewhere in `hay`?  This is Python's
`needle in hay` on strings, on the character lists. -/
def listHasSub (needle : List Char) : List Char → Bool
  | [] => needle.isEmpty
  | c :: cs => listStartsWith needle (c :: cs) || listHasSub needle cs

/-- Python `pat in s` for strings. -/
def pyContains (s pat : String) : Bool := listHasSub pat.data s.data

-- ==========================================================================
-- numpy argmax (first index of the maximal entry)
-- ==========================================================================

/-- Accumulator loop for `npArgmax`: `best` is the index of the largest
entry seen so far, `bv` its value, `i` the index of the head of the
remaining list.  Ties keep the earlier index, as `np.argmax` does. -/
def argmaxAux : List ℚ → Nat → ℚ → Nat → Nat
  | [], best, _, _ => best
  | x :: xs, best, bv, i =>
      if bv < x then argmaxAux xs i x (i + 1) else argmaxAux xs best bv (i + 1)

/-- `np.argmax` on a score vector: index of the first maximal entry.
(`np.argmax` raises on an empty array; every caller in the scripts feeds it
a model output row, so theorems carry a nonemptiness hypothesis where it
matters and the value on `[]` is never relied on.) -/
def npArgmax : List ℚ → Nat
  | [] => 0
  | x :: xs => argmaxAux xs 0 x 1

-- ==========================================================================
-- The three deployed compliance rules (code of the decision lines)
-- ==========================================================================

/-- `controle_uniforme.py` line 235:
`is_compliant = 'correto' in class_name.lower() and confidence >= 0.75`. -/
def uniformCompliant (class_name : String) (confidence : ℚ) : Bool :=
  pyContains (pyLower class_name) "correto" && decide (mkRat 75 100 ≤ confidence)

/-- `detector_objetos.py` lines 263-265:
`('estranho' in class_name.lower() or 'foreign' in class_name.lower()) and
confidence >= 0.80`. -/
def foreignDetected (class_name : String) (confidence : ℚ) : Bool :=
  (pyContains (pyLower class_name) "estranho" || pyContains (pyLower class_name) "foreign")
    && decide (mkRat 80 100 ≤ confidence)

/-- `monitor_epi.py` line 357 (alert guard of `process_image_file`):
`'sem_epi' in class_name.lower() and confidence >= 0.7`. -/
def semEpiAlert (class_name : String) (confidence : ℚ) : Bool :=
  pyContains (pyLower class_name) "sem_epi" && decide (mkRat 70 100 ≤ confidence)

/-- Spec-side predicate, written from the spec's words for claim C1:
"the keyword appears in the predicted label text compared
case-insensitively" — both keyword and label are case-folded before the
substring test. -/
def specKeywordAppearsCI (keyword label : String) : Prop :=
  listHasSub (pyLower keyword).data (pyLower label).data = true

-- ==========================================================================
-- Classification pipelines
-- ==========================================================================

namespace MonitorEPI

/-- `MonitorEPI.predict`: arg-max over the model's output row, confidence is
that score, label is `self.labels[class_index]` when the index is in range
and the string `"unknown"` otherwise. -/
def predict (labels : List String) (predictions : List ℚ) : String × ℚ :=
  let class_index := npArgmax predictions
  let confidence := predictions.getD class_index 0
  let class_name :=
    if class_index < labels.length then labels.getD class_index "unknown" else "unknown"
  (class_name, confidence)

end MonitorEPI

namespace ControleUniforme

/-- `ControleUniforme.verify_uniform`.  `model_loaded = false` is the
`self.model is None` demo branch, which returns the fixed triple
`(True, "uniforme_correto", 0.95)` without looking at the image. -/
def verify_uniform (model_loaded : Bool) (labels : List String)
    (predictions : List ℚ) : Bool × String × ℚ :=
  if model_loaded then
    let class_index := npArgmax predictions
    let confidence := predictions.getD class_index 0
    let class_name :=
      if class_index < labels.length then labels.getD class_index "unknown" else "unknown"
    (uniformCompliant class_name confidence, class_name, confidence)
  else
    (true, "uniforme_correto", mkRat 95 100)

end ControleUniforme

namespace DetectorObjetos

/-- `DetectorObjetosEstranhos.detect_foreign_object`.  `model_loaded = false`
is the `self.model is None` demo branch, returning the fixed triple
`(False, "produto_limpo", 0.98)`. -/
def detect_foreign_object (model_loaded : Bool) (labels : List String)
    (predictions : List ℚ) : Bool × String × ℚ :=
  if model_loaded then
    let class_index := npArgmax predictions
    let confidence := predictions.getD class_index 0
    let class_name :=
      if class_index < labels.length then labels.getD class_index "unknown" else "unknown"
    (foreignDetected class_name confidence, class_name, confidence)
  else
    (false, "produto_limpo", mkRat 98 100)

end DetectorObjetos

-- ==========================================================================
-- monitor_epi.py : alert sequence (save image, append log, best-effort email)
-- ==========================================================================

namespace MonitorEPI

/-- The logs directory of `monitor_epi.py`, as far as the alert path touches
it: how many evidence images and how many `ocorrencias_epi.log` lines exist. -/
structure MonitorFS where
  evidenceImages : Nat
  logLines : Nat
  deriving DecidableEq

/-- `MonitorEPI.save_alert_image`: writes the incident image; `imwriteOk`
says whether the write raises.  Returns the file system reached and
whether the call raised (its `except` clause logs and re-raises). -/
def save_alert_image (fs : MonitorFS) (imwriteOk : Bool) : MonitorFS × Bool :=
  if imwriteOk then ({ fs with evidenceImages := fs.evidenceImages + 1 }, false)
  else (fs, true)

/-- `MonitorEPI.create_log_entry`: appends one line to the append-only log;
`appendOk` says whether the write raises (the `except` clause re-raises). -/
def create_log_entry (fs : MonitorFS) (appendOk : Bool) : MonitorFS × Bool :=
  if appendOk then ({ fs with logLines := fs.logLines + 1 }, false)
  else (fs, true)

/-- The raw SMTP interaction inside `send_email_alert` (connect, login,
send); `smtpOk = false` means some step raises. -/
def smtp_send (smtpOk : Bool) : Except String Unit :=
  if smtpOk then Except.ok () else Except.error "SMTPException"

/-- `MonitorEPI.send_email_alert`: the whole body is wrapped in
`try ... except Exception`, which logs the failure and falls through —
the function itself never raises. -/
def send_email_alert (smtpOk : Bool) : Except String Unit :=
  match smtp_send smtpOk with
  | Except.ok _ => Except.ok ()
  | Except.error _ => Except.ok ()

/-- `MonitorEPI.trigger_alert`: save the evidence image, append the log
line, then attempt the email inside a further `try ... except` whose
handler only logs.  Returns the file system reached and whether the alert
sequence raised. -/
def trigger_alert (fs : MonitorFS) (imwriteOk appendOk smtpOk : Bool) :
    MonitorFS × Bool :=
  match save_alert_image fs imwriteOk with
  | (fs1, true) => (fs1, true)
  | (fs1, false) =>
    match create_log_entry fs1 appendOk with
    | (fs2, true) => (fs2, true)
    | (fs2, false) =>
      match send_email_alert smtpOk with
      | Except.ok _ => (fs2, false)
      | Except.error _ => (fs2, false)

/-- `MonitorEPI._load_model`: raises `FileNotFoundError` when the model
artifact is missing. -/
def load_model (modelExists : Bool) : Except String Unit :=
  if modelExists then Except.ok ()
  else Except.error "Modelo não encontrado"

/-- `MonitorEPI._load_labels`: raises `FileNotFoundError` when the label
file is missing; otherwise the stripped lines of the file. -/
def load_labels (labelsExist : Bool) (fileLabels : List String) :
    Except String (List String) :=
  if labelsExist then Except.ok fileLabels
  else Except.error "Arquivo de rótulos não encontrado"

/-- `MonitorEPI.__init__`: loads the model, then the labels; any raise
propagates out of the constructor. -/
def init (modelExists labelsExist : Bool) (fileLabels : List String) :
    Except String (List String) :=
  match load_model modelExists with
  | Except.error e => Except.error e
  | Except.ok _ =>
    match load_labels labelsExist fileLabels with
    | Except.error e => Except.error e
    | Except.ok ls => Except.ok ls

/-- `monitor_epi.main`: constructs `MonitorEPI()` inside `try`; a raised
startup error is caught and `main` returns exit code 1 (passed to
`exit`), without any classification having been performed. -/
def main_exit_code (modelExists labelsExist : Bool) (fileLabels : List String) : Nat :=
  match init modelExists labelsExist fileLabels with
  | Except.error _ => 1
  | Except.ok _ => 0

end MonitorEPI

-- ==========================================================================
-- controle_uniforme.py : state, incident recording, batch driver, report
-- ==========================================================================

namespace ControleUniforme

/-- Report document of `generate_compliance_report` (the JSON fields that
are not the timestamp). -/
structure ComplianceReport where
  total_violacoes : Nat
  sistema : String
  area : String
  threshold_confianca : ℚ
  deriving DecidableEq

/-- One `ControleUniforme` instance plus the slice of the file system it
owns: the violation counter, the evidence images and log lines under
`logs/controle_qualidade`, and the report files written. -/
structure ControleState where
  model_loaded : Bool
  labels : List String
  violations_count : Nat
  evidenceImages : Nat
  logLines : Nat
  reports : List ComplianceReport
  deriving DecidableEq

/-- `ControleUniforme._load_model`: when the model file is missing it logs
warnings and returns, leaving `self.model = None`; it does not raise. -/
def load_model (modelExists : Bool) : Except String Bool :=
  if modelExists then Except.ok true else Except.ok false

/-- `ControleUniforme._load_labels`: when the label file is missing it
falls back to the hard-coded default pair and returns; it does not raise. -/
def load_labels (labelsExist : Bool) (fileLabels : List String) :
    Except String (List String) :=
  if labelsExist then Except.ok fileLabels
  else Except.ok ["uniforme_correto", "uniforme_incorreto"]

/-- `ControleUniforme.__init__`: loads model then labels, then zeroes the
violation counter. -/
def init (modelExists labelsExist : Bool) (fileLabels : List String) :
    Except String ControleState :=
  match load_model modelExists with
  | Except.error e => Except.error e
  | Except.ok m =>
    match load_labels labelsExist fileLabels with
    | Except.error e => Except.error e
    | Except.ok ls =>
      Except.ok { model_loaded := m, labels := ls, violations_count := 0,
                  evidenceImages := 0, logLines := 0, reports := [] }

/-- `ControleUniforme.log_violation`: writes the evidence image, appends
the log line, and only then increments `self.violations_count`.
`imwriteOk` and `appendOk` say whether the two writes raise; a raise
propagates (the `except` clause re-raises) with the earlier effects kept. -/
def log_violation (s : ControleState) (imwriteOk appendOk : Bool) :
    ControleState × Bool :=
  if imwriteOk then
    let s1 := { s with evidenceImages := s.evidenceImages + 1 }
    if appendOk then
      let s2 := { s1 with logLines := s1.logLines + 1 }
      ({ s2 with violations_count := s2.violations_count + 1 }, false)
    else (s1, true)
  else (s, true)

/-- The loop body of `ControleUniforme.process_directory` over the listed
images (each abstracted by its prediction vector), threading the approved
and denied tallies; every incident write succeeds. -/
def process_directory_loop (s : ControleState) (approved denied : Nat) :
    List (List ℚ) → ControleState × Nat × Nat
  | [] => (s, approved, denied)
  | preds :: rest =>
    let r := verify_uniform s.model_loaded s.labels preds
    if r.1 then process_directory_loop s (approved + 1) denied rest
    else process_directory_loop (log_violation s true true).1 approved (denied + 1) rest

/-- `ControleUniforme.process_directory` on a directory whose readable
images produce the given prediction vectors. -/
def process_directory (s : ControleState) (images : List (List ℚ)) :
    ControleState × Nat × Nat :=
  process_directory_loop s 0 0 images

/-- Number of images of a batch that `verify_uniform` judges non-compliant
(the `K` of the spec's batch property). -/
def nonCompliantCount (model_loaded : Bool) (labels : List String)
    (images : List (List ℚ)) : Nat :=
  (images.filter fun preds => !(verify_uniform model_loaded labels preds).1).length

/-- `ControleUniforme.generate_compliance_report`: writes one JSON report
snapshotting the violation counter plus static metadata; no counter is
touched. -/
def generate_compliance_report (s : ControleState) : ControleState :=
  let report : ComplianceReport :=
    { total_violacoes := s.violations_count,
      sistema := "Controle de Uniformes - Qualidade",
      area := "Zona de Alta Higiene - Embalagem",
      threshold_confianca := mkRat 75 100 }
  { s with reports := s.reports ++ [report] }

end ControleUniforme

-- ==========================================================================
-- detector_objetos.py : state, conveyor-belt state machine, report
-- ==========================================================================

namespace DetectorObjetos

/-- Report document of `generate_quality_report` (the JSON fields that are
not the timestamp). -/
structure QualityReport where
  total_deteccoes : Nat
  paradas_linha : Nat
  falsos_alarmes : Nat
  sistema : String
  area : String
  threshold_confianca : ℚ
  status_linha : String
  deriving DecidableEq

/-- One `DetectorObjetosEstranhos` instance plus the slice of the file
system it owns. -/
structure DetectorState where
  model_loaded : Bool
  labels : List String
  detections_count : Nat
  false_alarms : Nat
  line_stoppages : Nat
  line_running : Bool
  evidenceImages : Nat
  logLines : Nat
  reports : List QualityReport
  deriving DecidableEq

/-- `DetectorObjetosEstranhos._load_model`: missing model file logs
warnings and returns with `self.model = None`; no raise. -/
def load_model (modelExists : Bool) : Except String Bool :=
  if modelExists then Except.ok true else Except.ok false

/-- `DetectorObjetosEstranhos._load_labels`: missing label file falls back
to the default pair; no raise. -/
def load_labels (labelsExist : Bool) (fileLabels : List String) :
    Except String (List String) :=
  if labelsExist then Except.ok fileLabels
  else Except.ok ["produto_limpo", "objeto_estranho"]

/-- `DetectorObjetosEstranhos.__init__`. -/
def init (modelExists labelsExist : Bool) (fileLabels : List String) :
    Except String DetectorState :=
  match load_model modelExists with
  | Except.error e => Except.error e
  | Except.ok m =>
    match load_labels labelsExist fileLabels with
    | Except.error e => Except.error e
    | Except.ok ls =>
      Except.ok { model_loaded := m, labels := ls, detections_count := 0,
                  false_alarms := 0, line_stoppages := 0, line_running := true,
                  evidenceImages := 0, logLines := 0, reports := [] }

/-- `DetectorObjetosEstranhos.stop_production_line`. -/
def stop_production_line (s : DetectorState) : DetectorState :=
  { s with line_running := false, line_stoppages := s.line_stoppages + 1 }

/-- `DetectorObjetosEstranhos.restart_production_line`. -/
def restart_production_line (s : DetectorState) : DetectorState :=
  { s with line_running := true }

/-- `DetectorObjetosEstranhos.log_detection`: evidence image, log line,
then `self.detections_count += 1`; same raise discipline as
`log_violation`. -/
def log_detection (s : DetectorState) (imwriteOk appendOk : Bool) :
    DetectorState × Bool :=
  if imwriteOk then
    let s1 := { s with evidenceImages := s.evidenceImages + 1 }
    if appendOk then
      let s2 := { s1 with logLines := s1.logLines + 1 }
      ({ s2 with detections_count := s2.detections_count + 1 }, false)
    else (s1, true)
  else (s, true)

/-- External stimuli of one processed iteration of
`monitor_conveyor_belt`: a processed camera frame (abstracted by its
prediction vector), or the operator pressing the restart key. -/
inductive BeltEvent where
  | frame (preds : List ℚ)
  | keyRestart
  deriving DecidableEq

/-- One state transition of the `monitor_conveyor_belt` loop.  On a
processed frame the loop runs `detect_foreign_object`; if the line is
stopped it only overlays a message; otherwise a foreign-object verdict
records the detection and stops the line.  The restart key restarts the
line only when it is stopped. -/
def belt_step (s : DetectorState) (e : BeltEvent) : DetectorState :=
  match e with
  | BeltEvent.frame preds =>
    let r := detect_foreign_object s.model_loaded s.labels preds
    if s.line_running then
      if r.1 then stop_production_line (log_detection s true true).1
      else s
    else s
  | BeltEvent.keyRestart =>
    if s.line_running then s else restart_production_line s

/-- `DetectorObjetosEstranhos.generate_quality_report`: one JSON report
snapshotting the counters and the line status; no counter is touched. -/
def generate_quality_report (s : DetectorState) : DetectorState :=
  let report : QualityReport :=
    { total_deteccoes := s.detections_count,
      paradas_linha := s.line_stoppages,
      falsos_alarmes := s.false_alarms,
      sistema := "Detector de Objetos Estranhos",
      area := "Esteira de Embalagem",
      threshold_confianca := mkRat 80 100,
      status_linha := if s.line_running then "EM OPERAÇÃO" else "PARADA" }
  { s with reports := s.reports ++ [report] }

end DetectorObjetos

-- ==========================================================================
-- Helper lemmas
-- ==========================================================================

theorem pyLower_correto : pyLower "correto" = "correto" := by decide

theorem pyLower_estranho : pyLower "estranho" = "estranho" := by decide

theorem pyLower_foreign : pyLower "foreign" = "foreign" := by decide

theorem pyLower_sem_epi : pyLower "sem_epi" = "sem_epi" := by decide

theorem argmaxAux_lt (xs : List ℚ) :
    ∀ (best : Nat) (bv : ℚ) (i : Nat), best < i →
      argmaxAux xs best bv i < i + xs.length := by
  induction xs with
  | nil => intro best bv i h; simpa [argmaxAux] using h
  | cons x xs ih =>
    intro best bv i h
    simp only [argmaxAux, List.length_cons]
    by_cases hx : bv < x
    · simp only [hx, if_true]
      have := ih i x (i + 1) (Nat.lt_succ_self i)
      omega
    · simp only [hx, if_false]
      have := ih best bv (i + 1) (by omega)
      omega

theorem npArgmax_lt_length (l : List ℚ) (h : l ≠ []) : npArgmax l < l.length := by
  cases l with
  | nil => exact absurd rfl h
  | cons x xs =>
    have := argmaxAux_lt xs 0 x 1 Nat.one_pos
    simp only [npArgmax, List.length_cons]
    omega

-- ==========================================================================
-- Claim theorems
-- ==========================================================================

/-- C1: each deployed compliance evaluation returns its positive verdict iff
the rule keyword appears case-insensitively in the predicted label text AND
the confidence is ≥ the rule threshold (inclusive); for the inverted rules
(`estranho`/`foreign` at 0.80, `sem_epi` at 0.70) the positive verdict is the
NON-compliant one.  The final three conjuncts check the inclusive boundary:
confidence exactly equal to the threshold meets it. -/
theorem claim1_compliance_rules (class_name : String) (confidence : ℚ) :
    (uniformCompliant class_name confidence = true ↔
      (specKeywordAppearsCI "correto" class_name ∧ mkRat 75 100 ≤ confidence))
    ∧ (foreignDetected class_name confidence = true ↔
      ((specKeywordAppearsCI "estranho" class_name ∨ specKeywordAppearsCI "foreign" class_name)
        ∧ mkRat 80 100 ≤ confidence))
    ∧ (semEpiAlert class_name confidence = true ↔
      (specKeywordAppearsCI "sem_epi" class_name ∧ mkRat 70 100 ≤ confidence))
    ∧ uniformCompliant "uniforme_correto" (mkRat 75 100) = true
    ∧ foreignDetected "objeto_estranho" (mkRat 80 100) = true
    ∧ semEpiAlert "sem_epi" (mkRat 70 100) = true := by
  refine ⟨?_, ?_, ?_, by decide, by decide, by decide⟩
  · simp [uniformCompliant, specKeywordAppearsCI, pyContains, pyLower_correto,
      Bool.and_eq_true, decide_eq_true_iff]
  · simp [foreignDetected, specKeywordAppearsCI, pyContains, pyLower_estranho,
      pyLower_foreign, Bool.and_eq_true, Bool.or_eq_true, decide_eq_true_iff]
  · simp [semEpiAlert, specKeywordAppearsCI, pyContains, pyLower_sem_epi,
      Bool.and_eq_true, decide_eq_true_iff]

/-- C2: in `trigger_alert`, when the evidence-image write and the log append
succeed, the outcome is the same whether or not the email side-channel
fails — both writes land and nothing is raised; `send_email_alert` itself
never lets a failure escape; and the email outcome never changes the result
of `trigger_alert` at all. -/
theorem claim2_email_never_blocks :
    (∀ (fs : MonitorEPI.MonitorFS) (smtpOk : Bool),
      MonitorEPI.trigger_alert fs true true smtpOk =
        ({ evidenceImages := fs.evidenceImages + 1, logLines := fs.logLines + 1 }, false))
    ∧ (∀ smtpOk : Bool, MonitorEPI.send_email_alert smtpOk = Except.ok ())
    ∧ (∀ (fs : MonitorEPI.MonitorFS) (imwriteOk appendOk : Bool),
      MonitorEPI.trigger_alert fs imwriteOk appendOk false =
        MonitorEPI.trigger_alert fs imwriteOk appendOk true) := by
  refine ⟨?_, ?_, ?_⟩
  · intro fs smtpOk; cases smtpOk <;> rfl
  · intro smtpOk; cases smtpOk <;> rfl
  · intro fs imwriteOk appendOk; cases imwriteOk <;> cases appendOk <;> rfl

/-- C8: generating a report is pure bookkeeping on the side: both report
generators append one document snapshotting the current counters plus the
static metadata, and every counter and the line-running flag are unchanged. -/
theorem claim8_report_preserves_counters (cs : ControleUniforme.ControleState)
    (ds : DetectorObjetos.DetectorState) :
    (ControleUniforme.generate_compliance_report cs).violations_count = cs.violations_count
    ∧ (ControleUniforme.generate_compliance_report cs).evidenceImages = cs.evidenceImages
    ∧ (ControleUniforme.generate_compliance_report cs).logLines = cs.logLines
    ∧ (ControleUniforme.generate_compliance_report cs).model_loaded = cs.model_loaded
    ∧ (ControleUniforme.generate_compliance_report cs).labels = cs.labels
    ∧ (ControleUniforme.generate_compliance_report cs).reports = cs.reports ++
        [{ total_violacoes := cs.violations_count,
           sistema := "Controle de Uniformes - Qualidade",
           area := "Zona de Alta Higiene - Embalagem",
           threshold_confianca := mkRat 75 100 }]
    ∧ (DetectorObjetos.generate_quality_report ds).detections_count = ds.detections_count
    ∧ (DetectorObjetos.generate_quality_report ds).false_alarms = ds.false_alarms
    ∧ (DetectorObjetos.generate_quality_report ds).line_stoppages = ds.line_stoppages
    ∧ (DetectorObjetos.generate_quality_report ds).line_running = ds.line_running
    ∧ (DetectorObjetos.generate_quality_report ds).evidenceImages = ds.evidenceImages
    ∧ (DetectorObjetos.generate_quality_report ds).logLines = ds.logLines
    ∧ (DetectorObjetos.generate_quality_report ds).reports = ds.reports ++
        [{ total_deteccoes := ds.detections_count,
           paradas_linha := ds.line_stoppages,
           falsos_alarmes := ds.false_alarms,
           sistema := "Detector de Objetos Estranhos",
           area := "Esteira de Embalagem",
           threshold_confianca := mkRat 80 100,
           status_linha := if ds.line_running then "EM OPERAÇÃO" else "PARADA" }] := by
  refine ⟨rfl, rfl, rfl, rfl, rfl, rfl, rfl, rfl, rfl, rfl, rfl, rfl, rfl⟩

theorem process_directory_loop_spec (m : Bool) (ls : List String) :
    ∀ (images : List (List ℚ)) (s : ControleUniforme.ControleState) (ap de : Nat),
    s.model_loaded = m → s.labels = ls →
    (ControleUniforme.process_directory_loop s ap de images).1.violations_count
        = s.violations_count + ControleUniforme.nonCompliantCount m ls images
    ∧ (ControleUniforme.process_directory_loop s ap de images).1.evidenceImages
        = s.evidenceImages + ControleUniforme.nonCompliantCount m ls images
    ∧ (ControleUniforme.process_directory_loop s ap de images).1.logLines
        = s.logLines + ControleUniforme.nonCompliantCount m ls images
    ∧ (ControleUniforme.process_directory_loop s ap de images).2.2
        = de + ControleUniforme.nonCompliantCount m ls images := by
  intro images
  induction images with
  | nil =>
    intro s ap de hm hl
    simp [ControleUniforme.process_directory_loop, ControleUniforme.nonCompliantCount]
  | cons preds rest ih =>
    intro s ap de hm hl
    by_cases h : (ControleUniforme.verify_uniform m ls preds).1 = true
    · have step : ControleUniforme.process_directory_loop s ap de (preds :: rest)
          = ControleUniforme.process_directory_loop s (ap + 1) de rest := by
        simp only [ControleUniforme.process_directory_loop, hm, hl, h, if_true]
      have hcount : ControleUniforme.nonCompliantCount m ls (preds :: rest)
          = ControleUniforme.nonCompliantCount m ls rest := by
        simp [ControleUniforme.nonCompliantCount, List.filter_cons, h]
      rw [step, hcount]
      exact ih s (ap + 1) de hm hl
    · have h' : (ControleUniforme.verify_uniform m ls preds).1 = false :=
        Bool.eq_false_iff.mpr h
      have step : ControleUniforme.process_directory_loop s ap de (preds :: rest)
          = ControleUniforme.process_directory_loop
              (ControleUniforme.log_violation s true true).1 ap (de + 1) rest := by
        simp only [ControleUniforme.process_directory_loop, hm, hl, h',
          Bool.false_eq_true, if_false]
      have hcount : ControleUniforme.nonCompliantCount m ls (preds :: rest)
          = ControleUniforme.nonCompliantCount m ls rest + 1 := by
        simp [ControleUniforme.nonCompliantCount, List.filter_cons, h']
      have hrec := ih (ControleUniforme.log_violation s true true).1 ap (de + 1) hm hl
      rw [step, hcount]
      have hs1 : (ControleUniforme.log_violation s true true).1.violations_count
          = s.violations_count + 1 := rfl
      have hs2 : (ControleUniforme.log_violation s true true).1.evidenceImages
          = s.evidenceImages + 1 := rfl
      have hs3 : (ControleUniforme.log_violation s true true).1.logLines
          = s.logLines + 1 := rfl
      rw [hs1, hs2, hs3] at hrec
      obtain ⟨h1, h2, h3, h4⟩ := hrec
      refine ⟨?_, ?_, ?_, ?_⟩ <;> omega

/-- C3: for a directory batch whose images yield the given prediction
vectors, with `K` the number of non-compliant verdicts, the driver starting
from a freshly initialized instance records exactly `K` incidents: the
denied tally (incremented exactly when `log_violation` is invoked) is `K`,
`K` log lines are appended, `K` evidence images are written, and the
in-memory violation counter ends at `K` from zero. -/
theorem claim3_batch_records_each_violation (labels : List String)
    (images : List (List ℚ)) :
    (ControleUniforme.process_directory
        { model_loaded := true, labels := labels, violations_count := 0,
          evidenceImages := 0, logLines := 0, reports := [] } images).1.violations_count
      = ControleUniforme.nonCompliantCount true labels images
    ∧ (ControleUniforme.process_directory
        { model_loaded := true, labels := labels, violations_count := 0,
          evidenceImages := 0, logLines := 0, reports := [] } images).1.evidenceImages
      = ControleUniforme.nonCompliantCount true labels images
    ∧ (ControleUniforme.process_directory
        { model_loaded := true, labels := labels, violations_count := 0,
          evidenceImages := 0, logLines := 0, reports := [] } images).1.logLines
      = ControleUniforme.nonCompliantCount true labels images
    ∧ (ControleUniforme.process_directory
        { model_loaded := true, labels := labels, violations_count := 0,
          evidenceImages := 0, logLines := 0, reports := [] } images).2.2
      = ControleUniforme.nonCompliantCount true labels images := by
  have h := process_directory_loop_spec true labels images
    { model_loaded := true, labels := labels, violations_count := 0,
      evidenceImages := 0, logLines := 0, reports := [] } 0 0 rfl rfl
  simpa [ControleUniforme.process_directory] using h

theorem demo_loop_identity (images : List (List ℚ)) :
    ∀ (s : ControleUniforme.ControleState) (ap de : Nat),
    s.model_loaded = false →
    ControleUniforme.process_directory_loop s ap de images
      = (s, ap + images.length, de) := by
  induction images with
  | nil => intro s ap de hm; simp [ControleUniforme.process_directory_loop]
  | cons preds rest ih =>
    intro s ap de hm
    have step : ControleUniforme.process_directory_loop s ap de (preds :: rest)
        = ControleUniforme.process_directory_loop s (ap + 1) de rest := by
      simp only [ControleUniforme.process_directory_loop, hm,
        ControleUniforme.verify_uniform, Bool.false_eq_true, if_false, if_true]
    rw [step, ih s (ap + 1) de hm]
    simp only [List.length_cons]
    refine congrArg _ ?_
    refine congrArg (fun n => (n, de)) ?_
    omega

/-- C9: with no model loaded (`self.model is None`), `verify_uniform`
returns the fixed compliant triple and `detect_foreign_object` the fixed
clean triple on every image; a whole directory batch in this demo mode
records no incident (violation counter, evidence images and log lines stay
at zero, `log_violation` is never invoked — the denied tally stays zero),
and a conveyor frame never changes the detector state. -/
theorem claim9_demo_mode_always_compliant :
    (∀ (labels : List String) (preds : List ℚ),
      ControleUniforme.verify_uniform false labels preds
        = (true, "uniforme_correto", mkRat 95 100))
    ∧ (∀ (labels : List String) (preds : List ℚ),
      DetectorObjetos.detect_foreign_object false labels preds
        = (false, "produto_limpo", mkRat 98 100))
    ∧ (∀ (labels : List String) (images : List (List ℚ)),
      ControleUniforme.process_directory
        { model_loaded := false, labels := labels, violations_count := 0,
          evidenceImages := 0, logLines := 0, reports := [] } images
      = ({ model_loaded := false, labels := labels, violations_count := 0,
           evidenceImages := 0, logLines := 0, reports := [] }, images.length, 0))
    ∧ (∀ (s : DetectorObjetos.DetectorState) (preds : List ℚ),
      s.model_loaded = false →
      DetectorObjetos.belt_step s (DetectorObjetos.BeltEvent.frame preds) = s) := by
  refine ⟨fun labels preds => rfl, fun labels preds => rfl, ?_, ?_⟩
  · intro labels images
    have h := demo_loop_identity images
      { model_loaded := false, labels := labels, violations_count := 0,
        evidenceImages := 0, logLines := 0, reports := [] } 0 0 rfl
    simpa [ControleUniforme.process_directory] using h
  · intro s preds hm
    simp only [DetectorObjetos.belt_step, hm, DetectorObjetos.detect_foreign_object,
      Bool.false_eq_true, if_false]
    by_cases hr : s.line_running = true
    · simp [hr]
    · simp [Bool.eq_false_iff.mpr hr]

/-- Witness for C9: a fresh demo-mode detector state is unchanged by a
frame whose vector would count as a foreign object if a model were loaded. -/
theorem claim9_demo_mode_always_compliant_witness :
    DetectorObjetos.belt_step
      { model_loaded := false, labels := ["produto_limpo", "objeto_estranho"],
        detections_count := 0, false_alarms := 0, line_stoppages := 0,
        line_running := true, evidenceImages := 0, logLines := 0, reports := [] }
      (DetectorObjetos.BeltEvent.frame [mkRat 1 100, mkRat 99 100])
    = { model_loaded := false, labels := ["produto_limpo", "objeto_estranho"],
        detections_count := 0, false_alarms := 0, line_stoppages := 0,
        line_running := true, evidenceImages := 0, logLines := 0, reports := [] } :=
  claim9_demo_mode_always_compliant.2.2.2
    { model_loaded := false, labels := ["produto_limpo", "objeto_estranho"],
      detections_count := 0, false_alarms := 0, line_stoppages := 0,
      line_running := true, evidenceImages := 0, logLines := 0, reports := [] }
    [mkRat 1 100, mkRat 99 100] rfl

/-- C10: the violation/detection counter is incremented only after both the
evidence-image write and the log append completed: whenever incident
recording raises (either write failing), the in-memory counter is exactly
what it was before; when nothing raises, both writes landed and the counter
moved up by one. -/
theorem claim10_counter_increment_atomic (cs : ControleUniforme.ControleState)
    (ds : DetectorObjetos.DetectorState) (imwriteOk appendOk : Bool) :
    ((ControleUniforme.log_violation cs imwriteOk appendOk).2 = true →
      (ControleUniforme.log_violation cs imwriteOk appendOk).1.violations_count
        = cs.violations_count)
    ∧ ((ControleUniforme.log_violation cs imwriteOk appendOk).2 = false →
      (ControleUniforme.log_violation cs imwriteOk appendOk).1
        = { cs with evidenceImages := cs.evidenceImages + 1,
                    logLines := cs.logLines + 1,
                    violations_count := cs.violations_count + 1 })
    ∧ ((DetectorObjetos.log_detection ds imwriteOk appendOk).2 = true →
      (DetectorObjetos.log_detection ds imwriteOk appendOk).1.detections_count
        = ds.detections_count)
    ∧ ((DetectorObjetos.log_detection ds imwriteOk appendOk).2 = false →
      (DetectorObjetos.log_detection ds imwriteOk appendOk).1
        = { ds with evidenceImages := ds.evidenceImages + 1,
                    logLines := ds.logLines + 1,
                    detections_count := ds.detections_count + 1 }) := by
  cases imwriteOk <;> cases appendOk <;>
    simp [ControleUniforme.log_violation, DetectorObjetos.log_detection]

/-- Witness for C10: a failing log append (image write succeeded) raises
and leaves the violation and detection counters untouched. -/
theorem claim10_counter_increment_atomic_witness :
    (ControleUniforme.log_violation
      { model_loaded := true, labels := ["uniforme_correto", "uniforme_incorreto"],
        violations_count := 3, evidenceImages := 3, logLines := 3, reports := [] }
      true false).1.violations_count = 3
    ∧ (DetectorObjetos.log_detection
      { model_loaded := true, labels := ["produto_limpo", "objeto_estranho"],
        detections_count := 2, false_alarms := 0, line_stoppages := 1,
        line_running := true, evidenceImages := 2, logLines := 2, reports := [] }
      true false).1.detections_count = 2 :=
  ⟨(claim10_counter_increment_atomic
      { model_loaded := true, labels := ["uniforme_correto", "uniforme_incorreto"],
        violations_count := 3, evidenceImages := 3, logLines := 3, reports := [] }
      { model_loaded := true, labels := ["produto_limpo", "objeto_estranho"],
        detections_count := 2, false_alarms := 0, line_stoppages := 1,
        line_running := true, evidenceImages := 2, logLines := 2, reports := [] }
      true false).1 rfl,
   (claim10_counter_increment_atomic
      { model_loaded := true, labels := ["uniforme_correto", "uniforme_incorreto"],
        violations_count := 3, evidenceImages := 3, logLines := 3, reports := [] }
      { model_loaded := true, labels := ["produto_limpo", "objeto_estranho"],
        detections_count := 2, false_alarms := 0, line_stoppages := 1,
        line_running := true, evidenceImages := 2, logLines := 2, reports := [] }
      true false).2.2.1 rfl⟩

/-- C4: on any valid image (nonempty model output row), `predict` returns a
label drawn from the loaded label set together with the sentinel
`"unknown"`; when `"unknown"` is not itself a loaded label, the sentinel is
returned exactly when the arg-max index is not a valid position into the
label set; and whenever the output row's entries lie in [0,1], so does the
returned confidence. -/
theorem claim4_predict_label_and_confidence (labels : List String) (preds : List ℚ)
    (hne : preds ≠ []) :
    ((MonitorEPI.predict labels preds).1 ∈ labels
      ∨ (MonitorEPI.predict labels preds).1 = "unknown")
    ∧ ((¬ "unknown" ∈ labels) →
        ((MonitorEPI.predict labels preds).1 = "unknown"
          ↔ labels.length ≤ npArgmax preds))
    ∧ ((∀ x ∈ preds, 0 ≤ x ∧ x ≤ 1) →
        0 ≤ (MonitorEPI.predict labels preds).2
          ∧ (MonitorEPI.predict labels preds).2 ≤ 1) := by
  have hidx : npArgmax preds < preds.length := npArgmax_lt_length preds hne
  have hfst : (MonitorEPI.predict labels preds).1
      = if npArgmax preds < labels.length then labels.getD (npArgmax preds) "unknown"
        else "unknown" := rfl
  have hsnd : (MonitorEPI.predict labels preds).2 = preds.getD (npArgmax preds) 0 := rfl
  have hmem_snd : preds.getD (npArgmax preds) 0 ∈ preds := by
    rw [List.getD_eq_getElem preds 0 hidx]
    exact List.getElem_mem hidx
  refine ⟨?_, ?_, ?_⟩
  · rw [hfst]
    by_cases h : npArgmax preds < labels.length
    · rw [if_pos h, List.getD_eq_getElem labels "unknown" h]
      exact Or.inl (List.getElem_mem h)
    · rw [if_neg h]
      exact Or.inr rfl
  · intro hu
    rw [hfst]
    constructor
    · intro heq
      by_contra hgt
      have hlt : npArgmax preds < labels.length := by omega
      rw [if_pos hlt, List.getD_eq_getElem labels "unknown" hlt] at heq
      exact hu (heq ▸ List.getElem_mem hlt)
    · intro hle
      rw [if_neg (by omega)]
  · intro hb
    rw [hsnd]
    exact hb _ hmem_snd

/-- Witness for C4 at the label set `["com_epi", "sem_epi"]` and the output
row `[1/4, 3/4]`: the predicted label is in the set or the sentinel, the
sentinel biconditional holds, and the confidence lies in [0,1]. -/
theorem claim4_predict_label_and_confidence_witness :
    ((MonitorEPI.predict ["com_epi", "sem_epi"] [mkRat 1 4, mkRat 3 4]).1
        ∈ (["com_epi", "sem_epi"] : List String)
      ∨ (MonitorEPI.predict ["com_epi", "sem_epi"] [mkRat 1 4, mkRat 3 4]).1 = "unknown")
    ∧ ((MonitorEPI.predict ["com_epi", "sem_epi"] [mkRat 1 4, mkRat 3 4]).1 = "unknown"
        ↔ (["com_epi", "sem_epi"] : List String).length ≤ npArgmax [mkRat 1 4, mkRat 3 4])
    ∧ (0 ≤ (MonitorEPI.predict ["com_epi", "sem_epi"] [mkRat 1 4, mkRat 3 4]).2
        ∧ (MonitorEPI.predict ["com_epi", "sem_epi"] [mkRat 1 4, mkRat 3 4]).2 ≤ 1) :=
  ⟨(claim4_predict_label_and_confidence ["com_epi", "sem_epi"]
      [mkRat 1 4, mkRat 3 4] (by decide)).1,
   (claim4_predict_label_and_confidence ["com_epi", "sem_epi"]
      [mkRat 1 4, mkRat 3 4] (by decide)).2.1 (by decide),
   (claim4_predict_label_and_confidence ["com_epi", "sem_epi"]
      [mkRat 1 4, mkRat 3 4] (by decide)).2.2 (by decide)⟩

/-- C7: in the conveyor monitor loop, (1) from RUNNING, a processed frame
with a foreign-object verdict automatically stops the line, increments the
stoppage counter by exactly 1 and records the detection; (2) the stoppage
counter changes only on such a RUNNING→STOPPED transition, and then by
exactly 1; (3) the only event that takes the line from STOPPED back to
RUNNING is the explicit operator restart key — a frame never does; (4) with
labels `["produto_limpo", "objeto_estranho"]`, the row giving
`objeto_estranho` confidence exactly 0.80 (the inclusive threshold) yields
a foreign-object verdict, and (5) from any RUNNING state with that model it
transitions the line to STOPPED with the stoppage counter up by 1. -/
theorem claim7_belt_state_machine :
    (∀ (s : DetectorObjetos.DetectorState) (preds : List ℚ),
      s.line_running = true →
      (DetectorObjetos.detect_foreign_object s.model_loaded s.labels preds).1 = true →
      (DetectorObjetos.belt_step s (DetectorObjetos.BeltEvent.frame preds)).line_running = false
      ∧ (DetectorObjetos.belt_step s (DetectorObjetos.BeltEvent.frame preds)).line_stoppages
          = s.line_stoppages + 1
      ∧ (DetectorObjetos.belt_step s (DetectorObjetos.BeltEvent.frame preds)).detections_count
          = s.detections_count + 1)
    ∧ (∀ (s : DetectorObjetos.DetectorState) (e : DetectorObjetos.BeltEvent),
      (DetectorObjetos.belt_step s e).line_stoppages ≠ s.line_stoppages →
      ((DetectorObjetos.belt_step s e).line_stoppages = s.line_stoppages + 1
        ∧ s.line_running = true
        ∧ (DetectorObjetos.belt_step s e).line_running = false))
    ∧ (∀ (s : DetectorObjetos.DetectorState) (e : DetectorObjetos.BeltEvent),
      s.line_running = false →
      (DetectorObjetos.belt_step s e).line_running = true →
      e = DetectorObjetos.BeltEvent.keyRestart)
    ∧ (DetectorObjetos.detect_foreign_object true ["produto_limpo", "objeto_estranho"]
        [mkRat 20 100, mkRat 80 100] = (true, "objeto_estranho", mkRat 80 100))
    ∧ (∀ s : DetectorObjetos.DetectorState,
      s.model_loaded = true → s.labels = ["produto_limpo", "objeto_estranho"] →
      s.line_running = true →
      (DetectorObjetos.belt_step s
        (DetectorObjetos.BeltEvent.frame [mkRat 20 100, mkRat 80 100])).line_running = false
      ∧ (DetectorObjetos.belt_step s
          (DetectorObjetos.BeltEvent.frame [mkRat 20 100, mkRat 80 100])).line_stoppages
        = s.line_stoppages + 1) := by
  have auto_stop : ∀ (s : DetectorObjetos.DetectorState) (preds : List ℚ),
      s.line_running = true →
      (DetectorObjetos.detect_foreign_object s.model_loaded s.labels preds).1 = true →
      (DetectorObjetos.belt_step s (DetectorObjetos.BeltEvent.frame preds)).line_running = false
      ∧ (DetectorObjetos.belt_step s (DetectorObjetos.BeltEvent.frame preds)).line_stoppages
          = s.line_stoppages + 1
      ∧ (DetectorObjetos.belt_step s (DetectorObjetos.BeltEvent.frame preds)).detections_count
          = s.detections_count + 1 := by
    intro s preds hrun hdet
    simp [DetectorObjetos.belt_step, hrun, hdet, DetectorObjetos.stop_production_line,
      DetectorObjetos.log_detection]
  refine ⟨auto_stop, ?_, ?_, by decide, ?_⟩
  · intro s e hne
    cases e with
    | frame preds =>
      by_cases hrun : s.line_running = true
      · by_cases hdet :
          (DetectorObjetos.detect_foreign_object s.model_loaded s.labels preds).1 = true
        · obtain ⟨h1, h2, _⟩ := auto_stop s preds hrun hdet
          exact ⟨h2, hrun, h1⟩
        · exact absurd (by
            simp [DetectorObjetos.belt_step, hrun, Bool.eq_false_iff.mpr hdet]) hne
      · exact absurd (by
          simp [DetectorObjetos.belt_step, Bool.eq_false_iff.mpr hrun]) hne
    | keyRestart =>
      by_cases hrun : s.line_running = true
      · exact absurd (by simp [DetectorObjetos.belt_step, hrun]) hne
      · exact absurd (by
          simp [DetectorObjetos.belt_step, Bool.eq_false_iff.mpr hrun,
            DetectorObjetos.restart_production_line]) hne
  · intro s e hstop hup
    cases e with
    | frame preds =>
      exfalso
      have : (DetectorObjetos.belt_step s (DetectorObjetos.BeltEvent.frame preds)) = s := by
        simp [DetectorObjetos.belt_step, hstop]
      rw [this, hstop] at hup
      exact Bool.false_ne_true hup
    | keyRestart => rfl
  · intro s hm hl hrun
    have hdet : (DetectorObjetos.detect_foreign_object s.model_loaded s.labels
        [mkRat 20 100, mkRat 80 100]).1 = true := by
      rw [hm, hl]; decide
    obtain ⟨h1, h2, _⟩ := auto_stop s [mkRat 20 100, mkRat 80 100] hrun hdet
    exact ⟨h1, h2⟩

/-- Witness for C7: from a freshly initialized detector (line RUNNING,
counters zero) with the default conveyor labels, the boundary frame
`[0.20, 0.80]` stops the line and sets the stoppage counter to 1, a frame
never restarts a stopped line, and pressing restart does. -/
theorem claim7_belt_state_machine_witness :
    ((DetectorObjetos.belt_step
        { model_loaded := true, labels := ["produto_limpo", "objeto_estranho"],
          detections_count := 0, false_alarms := 0, line_stoppages := 0,
          line_running := true, evidenceImages := 0, logLines := 0, reports := [] }
        (DetectorObjetos.BeltEvent.frame [mkRat 20 100, mkRat 80 100])).line_running = false
      ∧ (DetectorObjetos.belt_step
        { model_loaded := true, labels := ["produto_limpo", "objeto_estranho"],
          detections_count := 0, false_alarms := 0, line_stoppages := 0,
          line_running := true, evidenceImages := 0, logLines := 0, reports := [] }
        (DetectorObjetos.BeltEvent.frame [mkRat 20 100, mkRat 80 100])).line_stoppages = 0 + 1)
    ∧ (DetectorObjetos.BeltEvent.frame [mkRat 20 100, mkRat 80 100]
        = DetectorObjetos.BeltEvent.keyRestart
      → False) := by
  constructor
  · exact claim7_belt_state_machine.2.2.2.2
      { model_loaded := true, labels := ["produto_limpo", "objeto_estranho"],
        detections_count := 0, false_alarms := 0, line_stoppages := 0,
        line_running := true, evidenceImages := 0, logLines := 0, reports := [] }
      rfl rfl rfl
  · intro h
    exact DetectorObjetos.BeltEvent.noConfusion h

/-- Counterexample to C5: initializing `ControleUniforme` with the model
artifact missing (and the label file present) succeeds — `_load_model`
logs warnings and returns with `self.model = None` instead of raising —
and classification is subsequently performed (in demo mode), refuting
"every initialization with a missing model artifact fails and stops the
process with no classification performed". -/
theorem claim5_counterexample :
    ControleUniforme.init false true ["uniforme_correto", "uniforme_incorreto"]
      = Except.ok { model_loaded := false,
                    labels := ["uniforme_correto", "uniforme_incorreto"],
                    violations_count := 0, evidenceImages := 0, logLines := 0,
                    reports := [] }
    ∧ ControleUniforme.verify_uniform false ["uniforme_correto", "uniforme_incorreto"]
        [mkRat 1 2, mkRat 1 2]
      = (true, "uniforme_correto", mkRat 95 100)
    ∧ DetectorObjetos.init false true ["produto_limpo", "objeto_estranho"]
      = Except.ok { model_loaded := false,
                    labels := ["produto_limpo", "objeto_estranho"],
                    detections_count := 0, false_alarms := 0, line_stoppages := 0,
                    line_running := true, evidenceImages := 0, logLines := 0,
                    reports := [] } :=
  ⟨rfl, rfl, rfl⟩

/-- C5 as amended: only in `monitor_epi.py` is a missing model artifact
fatal — `MonitorEPI._load_model` raises, `__init__` propagates the error,
`main` catches it and returns exit code 1, and no classifier instance
exists to classify.  In `controle_uniforme.py` and `detector_objetos.py`
a missing model does not fail initialization: the instance is constructed
with no model and runs in demo mode. -/
theorem claim5_missing_model_fatal_only_in_monitor (labelsExist : Bool)
    (fileLabels : List String) :
    MonitorEPI.init false labelsExist fileLabels
      = Except.error "Modelo não encontrado"
    ∧ MonitorEPI.main_exit_code false labelsExist fileLabels = 1
    ∧ (∀ fl : List String, ControleUniforme.init false true fl
        = Except.ok { model_loaded := false, labels := fl, violations_count := 0,
                      evidenceImages := 0, logLines := 0, reports := [] })
    ∧ (∀ fl : List String, DetectorObjetos.init false true fl
        = Except.ok { model_loaded := false, labels := fl, detections_count := 0,
                      false_alarms := 0, line_stoppages := 0, line_running := true,
                      evidenceImages := 0, logLines := 0, reports := [] }) :=
  ⟨rfl, rfl, fun _ => rfl, fun _ => rfl⟩

/-- Counterexample to C6: initializing `MonitorEPI` with the label file
absent (and the model present) does NOT fall back to a default label set —
`MonitorEPI._load_labels` raises `FileNotFoundError` and startup fails,
refuting "every initialization with an absent label file falls back to the
default two-element label set and does not fail". -/
theorem claim6_counterexample :
    MonitorEPI.init true false ["com_epi", "sem_epi"]
      = Except.error "Arquivo de rótulos não encontrado"
    ∧ MonitorEPI.main_exit_code true false ["com_epi", "sem_epi"] = 1 :=
  ⟨rfl, rfl⟩

/-- C6 as amended: in `controle_uniforme.py` and `detector_objetos.py` an
absent label file makes `_load_labels` fall back to the hard-coded default
two-element label set and initialization succeeds; in `monitor_epi.py` an
absent label file raises and initialization fails with exit code 1. -/
theorem claim6_label_fallback_only_outside_monitor (modelExists : Bool)
    (fileLabels : List String) :
    ControleUniforme.init modelExists false fileLabels
      = Except.ok { model_loaded := modelExists,
                    labels := ["uniforme_correto", "uniforme_incorreto"],
                    violations_count := 0, evidenceImages := 0, logLines := 0,
                    reports := [] }
    ∧ DetectorObjetos.init modelExists false fileLabels
      = Except.ok { model_loaded := modelExists,
                    labels := ["produto_limpo", "objeto_estranho"],
                    detections_count := 0, false_alarms := 0, line_stoppages := 0,
                    line_running := true, evidenceImages := 0, logLines := 0,
                    reports := [] }
    ∧ MonitorEPI.init true false fileLabels
      = Except.error "Arquivo de rótulos não encontrado"
    ∧ MonitorEPI.main_exit_code true false fileLabels = 1 := by
  cases modelExists <;> exact ⟨rfl, rfl, rfl, rfl⟩
